import Mathlib

set_option linter.unusedVariables false

namespace ECom

/-!
Shallow embedding of the checkout core of the `ecommerse_sdp` Go repository:
error kinds and wrapping (pkg/errors/errors.go), payment results and the
decorator chain (internal/decorator), execution strategies
(internal/strategy), factories (internal/factory) and the checkout facade
(package facade).  Amounts are modelled as rationals, time as integer
seconds, and randomness and generated identifiers as explicit oracle
inputs.
-/

/-! ### Error model, from pkg/errors/errors.go -/

inductive ErrCode where
  | validation
  | notFound
  | alreadyExists
  | unauthorized
  | internalError
  | paymentFailed
  | insufficientFunds
  | invalidPayment
  | fraudDetected
  | inventoryError
  | timeout
deriving DecidableEq, Repr

/-- Go error chains. `appNew` is an `*AppError` node with a nil cause and
`appWrap` one enveloping a cause (its `Unwrap`); `wrapped` models a plain
wrapper produced by `fmt.Errorf` with `%w` (no code of its own); `simple` is
a leaf error with no cause. -/
inductive GoError where
  | appNew (code : ErrCode) (message : String)
  | appWrap (code : ErrCode) (message : String) (cause : GoError)
  | wrapped (message : String) (cause : GoError)
  | simple (message : String)
deriving DecidableEq, Repr

/-- errors.New: an AppError with no cause. -/
def errNew (code : ErrCode) (message : String) : GoError :=
  .appNew code message

/-- errors.Wrap: an AppError enveloping a cause. -/
def errWrap (err : GoError) (code : ErrCode) (message : String) : GoError :=
  .appWrap code message err

/-- A plain (codeless) wrapper, as produced by `fmt.Errorf` with `%w`. -/
def goWrap (message : String) (err : GoError) : GoError :=
  .wrapped message err

/-- Resolution used by `errors.As(err, &appErr)`: unwrap from the outside in
and stop at the first `*AppError`; this returns the code of that node. -/
def firstAppCode : GoError → Option ErrCode
  | .appNew c _ => some c
  | .appWrap c _ _ => some c
  | .wrapped _ cause => firstAppCode cause
  | .simple _ => none

/-- IsErrorCode from pkg/errors/errors.go: whether the first AppError found
by `errors.As` carries the given code. -/
def IsErrorCode (err : GoError) (code : ErrCode) : Bool :=
  firstAppCode err == some code

/-- GetErrorCode from pkg/errors/errors.go. -/
def GetErrorCode (err : GoError) : ErrCode :=
  (firstAppCode err).getD .internalError

/-! ### Payment results, from the payment package -/

/-- One entry of the `split_details` metadata list built by the split
strategy. -/
structure SplitDetail where
  part : Nat
  paymentMethod : String
  amount : ℚ
  transactionID : String
  status : String
deriving DecidableEq, Repr

/-- Metadata values stored in the `map[string]interface{}` bags of the Go
code, restricted to the value shapes the repository actually stores. -/
inductive MVal where
  | num (q : ℚ)
  | int (n : ℤ)
  | str (s : String)
  | strList (l : List String)
  | details (l : List SplitDetail)
deriving DecidableEq, Repr

/-- A metadata bag: an association list with map-update semantics. -/
def Metadata := List (String × MVal)
deriving DecidableEq, Repr

instance : EmptyCollection Metadata := ⟨([] : List (String × MVal))⟩

/-- Map assignment `m[k] = v`: replace the binding if present, else add it. -/
def Metadata.set : Metadata → String → MVal → Metadata
  | [], k, v => [(k, v)]
  | (k₀, v₀) :: rest, k, v =>
    if k₀ = k then (k, v) :: rest else (k₀, v₀) :: Metadata.set rest k v

/-- Map lookup `m[k]`. -/
def Metadata.get : Metadata → String → Option MVal
  | [], _ => none
  | (k₀, v₀) :: rest, k => if k₀ = k then some v₀ else Metadata.get rest k

/-- PaymentResult from the payment package. -/
structure PaymentResult where
  success : Bool
  transactionID : String
  amount : ℚ
  originalAmount : ℚ
  processedAmount : ℚ
  currency : String
  paymentMethod : String
  message : String
  metadata : Metadata
  appliedDecorators : List String
deriving DecidableEq, Repr

/-- A Payment capability is consumed through its `Process` method only; we
model it as a function from the amount to a result or an error. -/
def PaymentFn : Type := ℚ → Except GoError PaymentResult

/-- AmountValidator.Validate from the `pkg/validator` package (its source
accompanies the observer sources): reject below the minimum, above the
maximum, and then negative amounts, each with a plain (codeless) error; the
trailing negativity check only fires for ranges extending below zero. -/
def amountValidate (amount minAmount maxAmount : ℚ) : Option GoError :=
  if amount < minAmount then some (.simple "amount is below minimum")
  else if amount > maxAmount then some (.simple "amount exceeds maximum")
  else if amount < 0 then some (.simple "amount cannot be negative")
  else none

/-! ### Strategies, from internal/strategy.

Each Execute is instrumented with a trace: the list of amounts at which the
Process method of an underlying Payment was invoked, in call order. -/

/-- Rendering a value to two decimal places, the comparison key the split
strategy obtains from formatting both sides with two fraction digits. -/
def render2 (q : ℚ) : ℤ := round (q * 100)

/-- InstantPaymentStrategy from part of the strategy package. -/
structure InstantPaymentStrategy where
  minAmount : ℚ
  maxAmount : ℚ

/-- InstantPaymentStrategy.Execute: validate the amount, delegate once, wrap
any delegation failure in a payment-failed envelope, and tag the result. -/
def InstantPaymentStrategy.Execute (s : InstantPaymentStrategy) (p : PaymentFn)
    (amount : ℚ) : Except GoError PaymentResult × List ℚ :=
  match amountValidate amount s.minAmount s.maxAmount with
  | some e => (.error e, [])
  | none =>
    match p amount with
    | .error e =>
      (.error (errWrap e .paymentFailed "instant payment processing failed"), [amount])
    | .ok r =>
      (.ok { r with metadata := r.metadata.set "payment_strategy" (.str "instant") },
       [amount])

/-- DeferredPaymentStrategy from internal/strategy/deferred.go. -/
structure DeferredPaymentStrategy where
  minAmount : ℚ
  maxAmount : ℚ
  installments : Nat
  interestRate : ℚ

structure DeferredPaymentInstallment where
  installmentNumber : Nat
  amount : ℚ
  dueDate : String
  status : String
deriving DecidableEq, Repr

structure DeferredPaymentSchedule where
  id : String
  totalAmount : ℚ
  installments : Nat
  interestRate : ℚ
  payments : List DeferredPaymentInstallment
deriving DecidableEq, Repr

/-- CreateDeferredSchedule: the total with interest is divided evenly across
the installments; TotalAmount records the pre-interest amount.  The schedule
id is generated by `domain.NewID`, supplied here as an argument. -/
def CreateDeferredSchedule (schedId : String) (amount : ℚ) (installments : Nat)
    (interestRate : ℚ) : DeferredPaymentSchedule :=
  let totalWithInterest := amount * (1 + interestRate / 100)
  let installmentAmount := totalWithInterest / (installments : ℚ)
  { id := schedId
    totalAmount := amount
    installments := installments
    interestRate := interestRate
    payments := (List.range installments).map fun i =>
      { installmentNumber := i + 1
        amount := installmentAmount
        dueDate := ""
        status := "pending" } }

/-- First element of the schedule list; the Go code indexes `Payments[0]`,
which the factory guards by requiring at least 2 installments. -/
def firstScheduled : List DeferredPaymentInstallment → ℚ
  | [] => 0
  | inst :: _ => inst.amount

/-- DeferredPaymentStrategy.Execute: validate, build the schedule, process
only the first installment, and rewrite amount fields and metadata. -/
def DeferredPaymentStrategy.Execute (s : DeferredPaymentStrategy) (schedId : String)
    (p : PaymentFn) (amount : ℚ) : Except GoError PaymentResult × List ℚ :=
  match amountValidate amount s.minAmount s.maxAmount with
  | some e => (.error e, [])
  | none =>
    let schedule := CreateDeferredSchedule schedId amount s.installments s.interestRate
    let firstInstallment := firstScheduled schedule.payments
    match p firstInstallment with
    | .error e =>
      (.error (errWrap e .paymentFailed "deferred payment processing failed"),
       [firstInstallment])
    | .ok r =>
      (.ok { r with
          metadata :=
            (((((((r.metadata.set "payment_strategy" (.str "deferred")).set
              "schedule_id" (.str schedule.id)).set
              "total_amount" (.num schedule.totalAmount)).set
              "installments" (.int (s.installments : ℤ))).set
              "interest_rate" (.num s.interestRate)).set
              "first_installment" (.num firstInstallment)).set
              "remaining_installments" (.int ((s.installments : ℤ) - 1)))
          originalAmount := amount
          amount := firstInstallment
          processedAmount := firstInstallment },
       [firstInstallment])

/-- One (Payment, amount) pair of a split payment. -/
structure SplitPaymentItem where
  payment : PaymentFn
  amount : ℚ

/-- SplitPaymentStrategy from internal/strategy/split.go. -/
structure SplitPaymentStrategy where
  payments : List SplitPaymentItem

/-- NewSplitPaymentStrategy: between 1 and 5 parts. -/
def NewSplitPaymentStrategy (payments : List SplitPaymentItem) :
    Except GoError SplitPaymentStrategy :=
  if payments.length = 0 then
    .error (errNew .validation "at least one payment method is required")
  else if payments.length > 5 then
    .error (errNew .validation "maximum 5 payment methods allowed for split payment")
  else .ok { payments := payments }

/-- The per-part positivity scan of SplitPaymentStrategy.ValidateAmount. -/
def splitItemsValidate : List SplitPaymentItem → Option GoError
  | [] => none
  | item :: rest =>
    if item.amount ≤ 0 then
      some (errNew .validation "split payment part has invalid amount")
    else splitItemsValidate rest

/-- SplitPaymentStrategy.ValidateAmount: total positive and every part
positive. -/
def SplitPaymentStrategy.ValidateAmount (s : SplitPaymentStrategy) (amount : ℚ) :
    Option GoError :=
  if amount ≤ 0 then some (errNew .validation "amount must be positive")
  else splitItemsValidate s.payments

/-- The sequential part-processing loop of SplitPaymentStrategy.Execute: on
the first failing part the whole operation fails with a payment-failed
envelope (already-processed parts are only logged as rolled back); on full
success it returns the collected part results.  The trace records each
Process invocation. -/
def runSplitParts : List SplitPaymentItem → Except GoError (List PaymentResult) × List ℚ
  | [] => (.ok [], [])
  | item :: rest =>
    match item.payment item.amount with
    | .error e =>
      (.error (errWrap e .paymentFailed "split payment part failed"), [item.amount])
    | .ok r =>
      match runSplitParts rest with
      | (.error e, tr) => (.error e, item.amount :: tr)
      | (.ok rs, tr) => (.ok (r :: rs), item.amount :: tr)

/-- Per-part detail entries of the combined metadata. -/
def getSplitDetails (results : List PaymentResult) : List SplitDetail :=
  results.enum.map fun p =>
    { part := p.1 + 1
      paymentMethod := p.2.paymentMethod
      amount := p.2.amount
      transactionID := p.2.transactionID
      status := "completed" }

/-- Transaction id of the first part result (`processedResults[0]`). -/
def firstTransactionID : List PaymentResult → String
  | [] => ""
  | r :: _ => r.transactionID

/-- SplitPaymentStrategy.Execute: validate, reject a two-decimal sum
mismatch before processing any part, process the parts sequentially, and
combine. -/
def SplitPaymentStrategy.Execute (s : SplitPaymentStrategy) (totalAmount : ℚ) :
    Except GoError PaymentResult × List ℚ :=
  match s.ValidateAmount totalAmount with
  | some e => (.error e, [])
  | none =>
    let splitSum := (s.payments.map SplitPaymentItem.amount).sum
    if render2 splitSum ≠ render2 totalAmount then
      (.error (errNew .validation "split payment amounts do not match total amount"), [])
    else
      match runSplitParts s.payments with
      | (.error e, tr) => (.error e, tr)
      | (.ok results, tr) =>
        (.ok
          { success := true
            transactionID := firstTransactionID results
            amount := totalAmount
            originalAmount := totalAmount
            processedAmount := (s.payments.map SplitPaymentItem.amount).sum
            currency := "USD"
            paymentMethod := "split"
            message := "Split payment completed"
            metadata :=
              [("payment_strategy", .str "split"),
               ("payment_count", .int (s.payments.length : ℤ)),
               ("split_details", .details (getSplitDetails results))]
            appliedDecorators := [] },
         tr)

/-! ### Decorators, from internal/decorator.

A chain is a list of decorator specifications, outermost first, around a
base Payment.  Time is an integer clock; the randomized draws of the fraud
decorator and the current time are supplied through an environment. -/

/-- Per-call environment: the current time and the two random draws taken by
a fraud-detection decorator during one Process call. -/
structure Env where
  now : ℤ
  riskRand : ℕ
  geoRand : ℕ

/-- Truncation toward zero, the Go conversion `int(x)` applied to the amount
by the loyalty decorator. -/
def goIntTrunc (q : ℚ) : ℤ := if 0 ≤ q then ⌊q⌋ else -⌊-q⌋

structure DiscountConfig where
  discountType : String
  discountValue : ℚ
  minAmount : ℚ
  maxDiscount : ℚ
  expiryDate : Option ℤ
  discountCode : String
deriving DecidableEq, Repr

/-- NewDiscountDecorator validation: a positive value, percentages capped at
100. -/
def discountConfigValidate (cfg : DiscountConfig) : Option GoError :=
  if cfg.discountValue ≤ 0 then
    some (errNew .validation "discount value must be positive")
  else if cfg.discountType = "percentage" ∧ cfg.discountValue > 100 then
    some (errNew .validation "percentage discount cannot exceed 100")
  else none

/-- DiscountDecorator.calculateDiscount: percentage or fixed, capped by a
positive configured maximum and by the amount itself. -/
def calculateDiscount (cfg : DiscountConfig) (amount : ℚ) : ℚ :=
  let d :=
    if cfg.discountType = "percentage" then amount * (cfg.discountValue / 100)
    else cfg.discountValue
  let d := if cfg.maxDiscount > 0 ∧ d > cfg.maxDiscount then cfg.maxDiscount else d
  if d > amount then amount else d

structure TaxConfig where
  region : String
  taxRates : List (String × ℚ)
  defaultRate : ℚ
deriving DecidableEq, Repr

/-- Rate resolution done by NewTaxDecorator: the regional rate if present in
the table, the default rate otherwise. -/
def TaxConfig.rate (cfg : TaxConfig) : ℚ :=
  match cfg.taxRates.find? (fun p => p.1 == cfg.region) with
  | some p => p.2
  | none => cfg.defaultRate

structure CashbackConfig where
  tier1Threshold : ℚ
  tier1Percentage : ℚ
  tier2Percentage : ℚ
deriving DecidableEq, Repr

/-- CashbackDecorator.getCashbackPercentage: tier 2 at or above the
threshold, tier 1 below. -/
def cashbackPercentage (cfg : CashbackConfig) (amount : ℚ) : ℚ :=
  if amount ≥ cfg.tier1Threshold then cfg.tier2Percentage else cfg.tier1Percentage

structure FraudDetectionConfig where
  maxRiskScore : ℤ
  velocityCheckWindow : ℤ
  maxTransactionsPerWindow : Nat
  history : Option (List ℤ)
deriving DecidableEq, Repr

/-- FraudDetectionDecorator.calculateRiskScore: amount-threshold components
plus the randomized draw. -/
def calculateRiskScore (env : Env) (amount : ℚ) : ℤ :=
  (if amount > 1000 then 20 else 0) + (if amount > 5000 then 30 else 0) +
    (env.riskRand : ℤ)

/-- FraudDetectionDecorator.velocityCheck: with no history bucket recorded
yet the check passes outright; otherwise count the timestamps strictly after
the cutoff against the ceiling. -/
def velocityCheck (cfg : FraudDetectionConfig) (env : Env) : Option GoError :=
  match cfg.history with
  | none => none
  | some txs =>
    let recent := txs.filter fun t => t > env.now - cfg.velocityCheckWindow
    if recent.length ≥ cfg.maxTransactionsPerWindow then
      some (errNew .fraudDetected "transaction velocity exceeded")
    else none

/-- FraudDetectionDecorator.geolocationCheck: rejects when the draw from
rand.Intn(100) falls below 5. -/
def geolocationCheck (env : Env) : Option GoError :=
  if env.geoRand < 5 then some (errNew .fraudDetected "geolocation validation failed")
  else none

structure LoyaltyPointsConfig where
  availablePoints : ℤ
  pointsToRedeem : ℤ
  pointsToCurrencyRatio : ℚ
  maxRedemptionPercentage : ℚ
deriving DecidableEq, Repr

/-- NewLoyaltyPointsDecorator validation. -/
def loyaltyConfigValidate (cfg : LoyaltyPointsConfig) : Option GoError :=
  if cfg.pointsToRedeem > cfg.availablePoints then
    some (errNew .validation "insufficient loyalty points")
  else if cfg.pointsToRedeem < 0 then
    some (errNew .validation "points to redeem cannot be negative")
  else none

/-- A decorator node; a chain is a list of these, outermost first. -/
inductive Dec where
  | discount (cfg : DiscountConfig)
  | tax (cfg : TaxConfig)
  | cashback (cfg : CashbackConfig)
  | fraudDetection (cfg : FraudDetectionConfig)
  | loyaltyPoints (cfg : LoyaltyPointsConfig)

/-- Process of a decorator chain around a base payment, outermost decorator
first.  Each case is the Process method of the corresponding decorator:
compute the adjusted amount, delegate, propagate failures unchanged, then
mutate the returned result.  The trace lists the amounts at which the base
Payment was invoked.  The post-success recording of the fraud decorator
(recordTransaction) only affects later calls on the same instance, not the
returned result, so the single-call model omits it. -/
def processChain (env : Env) (base : PaymentFn) : List Dec → ℚ →
    Except GoError PaymentResult × List ℚ
  | [], amount =>
    match base amount with
    | .error e => (.error e, [amount])
    | .ok r => (.ok r, [amount])
  | .discount cfg :: rest, amount =>
    if (cfg.expiryDate.map fun exp => decide (exp < env.now)).getD false then
      (.error (errNew .validation "discount code has expired"), [])
    else if amount < cfg.minAmount then
      (.error (errNew .validation "minimum amount for discount not reached"), [])
    else
      let discountAmount := calculateDiscount cfg amount
      let final0 := amount - discountAmount
      let finalAmount := if final0 < 0 then 0 else final0
      match processChain env base rest finalAmount with
      | (.error e, tr) => (.error e, tr)
      | (.ok r, tr) =>
        (.ok { r with
            originalAmount := amount
            processedAmount := finalAmount
            amount := finalAmount
            appliedDecorators := r.appliedDecorators ++ ["discount"]
            metadata :=
              (((r.metadata.set "discount_type" (.str cfg.discountType)).set
                "discount_value" (.num cfg.discountValue)).set
                "discount_amount" (.num discountAmount)).set
                "discount_code" (.str cfg.discountCode) },
         tr)
  | .tax cfg :: rest, amount =>
    let taxAmount := amount * (cfg.rate / 100)
    let totalAmount := amount + taxAmount
    match processChain env base rest totalAmount with
    | (.error e, tr) => (.error e, tr)
    | (.ok r, tr) =>
      (.ok { r with
          originalAmount := if r.originalAmount = 0 then amount else r.originalAmount
          processedAmount := totalAmount
          amount := totalAmount
          appliedDecorators := r.appliedDecorators ++ ["tax"]
          metadata :=
            (((r.metadata.set "subtotal" (.num amount)).set
              "tax_amount" (.num taxAmount)).set
              "tax_rate" (.num cfg.rate)).set
              "tax_region" (.str cfg.region) },
       tr)
  | .cashback cfg :: rest, amount =>
    let cashbackAmount := amount * (cashbackPercentage cfg amount / 100)
    match processChain env base rest amount with
    | (.error e, tr) => (.error e, tr)
    | (.ok r, tr) =>
      (.ok { r with
          appliedDecorators := r.appliedDecorators ++ ["cashback"]
          metadata :=
            (r.metadata.set "cashback_amount" (.num cashbackAmount)).set
              "cashback_percentage" (.num (cashbackPercentage cfg amount)) },
       tr)
  | .fraudDetection cfg :: rest, amount =>
    let riskScore := calculateRiskScore env amount
    if riskScore > cfg.maxRiskScore then
      (.error (errNew .fraudDetected "transaction blocked: high fraud risk"), [])
    else
      match velocityCheck cfg env with
      | some e => (.error e, [])
      | none =>
        match geolocationCheck env with
        | some e => (.error e, [])
        | none =>
          match processChain env base rest amount with
          | (.error e, tr) => (.error e, tr)
          | (.ok r, tr) =>
            (.ok { r with
                appliedDecorators := r.appliedDecorators ++ ["fraud_detection"]
                metadata :=
                  (r.metadata.set "fraud_risk_score" (.int riskScore)).set
                    "fraud_checks_passed"
                    (.strList ["risk_score", "velocity_check", "geolocation_check"]) },
             tr)
  | .loyaltyPoints cfg :: rest, amount =>
    let discount := (cfg.pointsToRedeem : ℚ) / cfg.pointsToCurrencyRatio
    let maxRedemption := amount * (cfg.maxRedemptionPercentage / 100)
    if discount > maxRedemption then
      (.error (errNew .validation "loyalty points redemption exceeds maximum"), [])
    else
      let final0 := amount - discount
      let finalAmount := if final0 < 0 then 0 else final0
      let pointsEarned := goIntTrunc amount
      match processChain env base rest finalAmount with
      | (.error e, tr) => (.error e, tr)
      | (.ok r, tr) =>
        (.ok { r with
            originalAmount := if r.originalAmount = 0 then amount else r.originalAmount
            processedAmount := finalAmount
            amount := finalAmount
            appliedDecorators := r.appliedDecorators ++ ["loyalty_points"]
            metadata :=
              (((r.metadata.set "loyalty_points_redeemed" (.int cfg.pointsToRedeem)).set
                "loyalty_points_earned" (.int pointsEarned)).set
                "loyalty_discount" (.num discount)).set
                "loyalty_balance_after"
                (.int (cfg.availablePoints - cfg.pointsToRedeem + pointsEarned)) },
         tr)

/-! ### Domain model and repository, from the domain package and
internal/repository/memory_repository.go.

Cart items embed the product fields the receipt consumes.  The generated
identifiers (uuid) and wall-clock timestamps of the Go code are supplied as
arguments; fields only used for display (timestamps, payment-details
snapshots) are omitted. -/

structure Product where
  id : String
  name : String
  price : ℚ
  sku : String
  stock : ℤ
deriving DecidableEq, Repr

structure Customer where
  id : String
  email : String
  name : String
  loyaltyPoints : ℤ
  addressState : String
deriving DecidableEq, Repr

structure CartItem where
  productID : String
  productName : String
  productSKU : String
  quantity : ℤ
  price : ℚ
deriving DecidableEq, Repr

structure Cart where
  id : String
  customerID : String
  items : List CartItem
deriving DecidableEq, Repr

/-- Cart.GetTotal: sum of price times quantity over the items. -/
def Cart.getTotal (c : Cart) : ℚ :=
  (c.items.map fun item => item.price * (item.quantity : ℚ)).sum

inductive TransactionStatus where
  | pending
  | processing
  | completed
  | failed
  | refunded
deriving DecidableEq, Repr

structure Transaction where
  id : String
  customerID : String
  amount : ℚ
  status : TransactionStatus
  paymentMethod : String
  errorMessage : String
deriving DecidableEq, Repr

/-- The in-memory repository: keyed stores for products, customers and
transactions (the carts store is not touched by the claims). -/
structure Repo where
  products : List (String × Product)
  customers : List (String × Customer)
  transactions : List (String × Transaction)
deriving DecidableEq, Repr

def Repo.getProduct (repo : Repo) (id : String) : Except GoError Product :=
  match repo.products.find? (fun p => p.1 == id) with
  | some p => .ok p.2
  | none => .error (errNew .notFound "product not found")

def Repo.updateProduct (repo : Repo) (p : Product) : Except GoError Repo :=
  if (repo.products.find? (fun q => q.1 == p.id)).isSome then
    .ok { repo with
      products := repo.products.map fun q => if q.1 == p.id then (p.id, p) else q }
  else .error (errNew .notFound "product not found")

def Repo.getCustomer (repo : Repo) (id : String) : Except GoError Customer :=
  match repo.customers.find? (fun p => p.1 == id) with
  | some p => .ok p.2
  | none => .error (errNew .notFound "customer not found")

def Repo.updateCustomer (repo : Repo) (c : Customer) : Except GoError Repo :=
  if (repo.customers.find? (fun q => q.1 == c.id)).isSome then
    .ok { repo with
      customers := repo.customers.map fun q => if q.1 == c.id then (c.id, c) else q }
  else .error (errNew .notFound "customer not found")

def Repo.createTransaction (repo : Repo) (t : Transaction) : Except GoError Repo :=
  if (repo.transactions.find? (fun q => q.1 == t.id)).isSome then
    .error (errNew .alreadyExists "transaction already exists")
  else .ok { repo with transactions := repo.transactions ++ [(t.id, t)] }

/-! ### Inventory service, from internal/service/inventory_service.go -/

def checkAvailability (repo : Repo) (productID : String) (quantity : ℤ) :
    Except GoError Bool :=
  match repo.getProduct productID with
  | .error e => .error e
  | .ok p => .ok (decide (p.stock ≥ quantity))

def reserveStock (repo : Repo) (productID : String) (quantity : ℤ) :
    Except GoError Repo :=
  match repo.getProduct productID with
  | .error e => .error e
  | .ok p =>
    if p.stock < quantity then
      .error (errNew .inventoryError "insufficient stock for product")
    else repo.updateProduct { p with stock := p.stock - quantity }

def releaseStock (repo : Repo) (productID : String) (quantity : ℤ) :
    Except GoError Repo :=
  match repo.getProduct productID with
  | .error e => .error e
  | .ok p => repo.updateProduct { p with stock := p.stock + quantity }

/-! ### Factories, from internal/factory -/

inductive PaymentKind where
  | creditCard
  | paypal
  | crypto
deriving DecidableEq, Repr

/-- Process of the three payment instruments the facade constructs (from the
payment package): with a live context, validate the amount against the
instrument range and synthesize a successful result echoing the amount.  The
transaction id and the wall-clock strings are supplied or abstracted. -/
def basePaymentProcess (kind : PaymentKind) (txid : String) : PaymentFn := fun amount =>
  match kind with
  | .creditCard =>
    match amountValidate amount 1 10000 with
    | some e => .error (errWrap e .validation "invalid payment amount")
    | none => .ok
      { success := true, transactionID := txid, amount := amount
        originalAmount := amount, processedAmount := amount, currency := "USD"
        paymentMethod := "credit_card", message := "Payment processed successfully"
        metadata := [("card_holder", .str "John Doe"),
                     ("last_4_digits", .str "****0366"), ("processed_at", .str "")]
        appliedDecorators := [] }
  | .paypal =>
    match amountValidate amount 1 5000 with
    | some e => .error (errWrap e .validation "invalid payment amount")
    | none => .ok
      { success := true, transactionID := txid, amount := amount
        originalAmount := amount, processedAmount := amount, currency := "USD"
        paymentMethod := "paypal", message := "PayPal payment processed successfully"
        metadata := [("paypal_email", .str "user@example.com"),
                     ("processed_at", .str "")]
        appliedDecorators := [] }
  | .crypto =>
    match amountValidate amount 10 50000 with
    | some e => .error (errWrap e .validation "invalid payment amount")
    | none => .ok
      { success := true, transactionID := txid, amount := amount
        originalAmount := amount, processedAmount := amount, currency := "BTC"
        paymentMethod := "crypto", message := "Cryptocurrency payment processed successfully"
        metadata := [("crypto_type", .str "BTC"),
                     ("wallet_address", .str "1A1zP1****vfNa"),
                     ("blockchain_tx", .str ("0x" ++ txid.take 16)),
                     ("processed_at", .str "")]
        appliedDecorators := [] }

/-- CheckoutFacade.createPayment composed with PaymentFactory.CreatePayment:
an unsupported method name is an invalid-payment error.  Modelled from the
spec for the construction validators (pkg/validator is absent from the
sources): construction validates the instrument format and fails fast, and
the factory tests assert that the three hardcoded demo instruments the
facade supplies construct successfully. -/
def createPayment (method : String) : Except GoError PaymentKind :=
  if method = "credit_card" then .ok .creditCard
  else if method = "paypal" then .ok .paypal
  else if method = "crypto" then .ok .crypto
  else .error (errNew .invalidPayment "unsupported payment type")

structure DiscountFactoryConfig where
  enabled : Bool
  maxFixedAmount : ℚ
deriving DecidableEq, Repr

structure CashbackFactoryConfig where
  enabled : Bool
  tier1Threshold : ℚ
  tier1Percentage : ℚ
  tier2Percentage : ℚ
deriving DecidableEq, Repr

structure FraudFactoryConfig where
  enabled : Bool
  maxRiskScore : ℤ
  velocityCheckWindow : ℤ
  maxTransactionsPerWindow : Nat
deriving DecidableEq, Repr

structure TaxFactoryConfig where
  enabled : Bool
  rates : List (String × ℚ)
  defaultRate : ℚ
deriving DecidableEq, Repr

structure LoyaltyFactoryConfig where
  enabled : Bool
  pointsToCurrencyRatio : ℚ
  maxRedemptionPercentage : ℚ
deriving DecidableEq, Repr

structure DecoratorsConfig where
  discount : DiscountFactoryConfig
  cashback : CashbackFactoryConfig
  fraudDetection : FraudFactoryConfig
  tax : TaxFactoryConfig
  loyaltyPoints : LoyaltyFactoryConfig
deriving DecidableEq, Repr

structure PaymentRetryConfig where
  retryAttempts : Nat
deriving DecidableEq, Repr

/-- The configuration surface the facade consumes (timeout and retry delay
are real-time quantities outside the model). -/
structure Config where
  payment : PaymentRetryConfig
  decorators : DecoratorsConfig
deriving DecidableEq, Repr

structure CheckoutOptions where
  paymentMethod : String
  paymentStrategy : String
  enabledDecorators : List String
  discountCode : String
  useLoyaltyPoints : ℤ
deriving DecidableEq, Repr

/-- DecoratorFactory.createDecorator: a disabled feature (or loyalty without
points to redeem) passes the wrapped payment through; an unsupported name is
a validation error; the discount expiry is set thirty days (2592000 seconds)
past construction time. -/
def createDecorator (cfg : Config) (now : ℤ) (feature : String)
    (options : CheckoutOptions) (customer : Customer) : Except GoError (Option Dec) :=
  if feature = "discount" then
    if cfg.decorators.discount.enabled then
      let dcfg : DiscountConfig :=
        { discountType := "percentage", discountValue := 10, minAmount := 0
          maxDiscount := cfg.decorators.discount.maxFixedAmount
          expiryDate := some (now + 2592000), discountCode := options.discountCode }
      match discountConfigValidate dcfg with
      | some e => .error e
      | none => .ok (some (.discount dcfg))
    else .ok none
  else if feature = "cashback" then
    if cfg.decorators.cashback.enabled then
      .ok (some (.cashback
        { tier1Threshold := cfg.decorators.cashback.tier1Threshold
          tier1Percentage := cfg.decorators.cashback.tier1Percentage
          tier2Percentage := cfg.decorators.cashback.tier2Percentage }))
    else .ok none
  else if feature = "fraud_detection" then
    if cfg.decorators.fraudDetection.enabled then
      .ok (some (.fraudDetection
        { maxRiskScore := cfg.decorators.fraudDetection.maxRiskScore
          velocityCheckWindow := cfg.decorators.fraudDetection.velocityCheckWindow
          maxTransactionsPerWindow := cfg.decorators.fraudDetection.maxTransactionsPerWindow
          history := none }))
    else .ok none
  else if feature = "tax" then
    if cfg.decorators.tax.enabled then
      .ok (some (.tax
        { region := if customer.addressState ≠ "" then customer.addressState else "DEFAULT"
          taxRates := cfg.decorators.tax.rates
          defaultRate := cfg.decorators.tax.defaultRate }))
    else .ok none
  else if feature = "loyalty_points" then
    if cfg.decorators.loyaltyPoints.enabled then
      if options.useLoyaltyPoints = 0 then .ok none
      else
        let lcfg : LoyaltyPointsConfig :=
          { availablePoints := customer.loyaltyPoints
            pointsToRedeem := options.useLoyaltyPoints
            pointsToCurrencyRatio := cfg.decorators.loyaltyPoints.pointsToCurrencyRatio
            maxRedemptionPercentage := cfg.decorators.loyaltyPoints.maxRedemptionPercentage }
        match loyaltyConfigValidate lcfg with
        | some e => .error e
        | none => .ok (some (.loyaltyPoints lcfg))
    else .ok none
  else .error (errNew .validation "unsupported decorator")

/-- DecoratorFactory.CreateDecoratorChain: ordered fold over the requested
feature names, each wrapping the current payment, so the last feature built
is the outermost decorator (the head of the resulting list); a creation
failure is wrapped in a plain (codeless) error. -/
def createDecoratorChainAux (cfg : Config) (now : ℤ) (options : CheckoutOptions)
    (customer : Customer) : List String → List Dec → Except GoError (List Dec)
  | [], acc => .ok acc
  | feature :: rest, acc =>
    match createDecorator cfg now feature options customer with
    | .error e => .error (goWrap "failed to create decorator" e)
    | .ok none => createDecoratorChainAux cfg now options customer rest acc
    | .ok (some d) => createDecoratorChainAux cfg now options customer rest (d :: acc)

def createDecoratorChain (cfg : Config) (now : ℤ) (features : List String)
    (options : CheckoutOptions) (customer : Customer) : Except GoError (List Dec) :=
  createDecoratorChainAux cfg now options customer features []

inductive StrategyObj where
  | instant (s : InstantPaymentStrategy)
  | deferred (s : DeferredPaymentStrategy)
  | split (s : SplitPaymentStrategy)

/-- StrategyFactory.CreateStrategy invoked with nil params, as the facade
does: defaults for instant and deferred, and a validation error for split
(only CreateSplitStrategy builds split strategies) and for unsupported
names. -/
def CreateStrategy (strategyType : String) : Except GoError StrategyObj :=
  if strategyType = "instant" then
    .ok (.instant { minAmount := 1, maxAmount := 10000 })
  else if strategyType = "deferred" then
    .ok (.deferred { minAmount := 100, maxAmount := 10000, installments := 3, interestRate := 0 })
  else if strategyType = "split" then
    .error (errNew .validation "split strategy must be created with CreateSplitStrategy")
  else .error (errNew .validation "unsupported payment strategy")

/-- Dispatch of PaymentStrategy.Execute over the strategy object. -/
def StrategyObj.execute (strat : StrategyObj) (schedId : String) (p : PaymentFn)
    (amount : ℚ) : Except GoError PaymentResult × List ℚ :=
  match strat with
  | .instant s => s.Execute p amount
  | .deferred s => s.Execute schedId p amount
  | .split s => s.Execute amount

/-! ### Checkout facade, from the facade package -/

/-- CheckoutFacade.executeWithRetry as a fuel recursion: `fuel` is the
number of loop iterations still allowed (`retryAttempts + 1` at entry),
`execs k` the outcome of strategy execution on attempt `k`.  Returns the
result together with the number of attempts actually made.  An error
classified fraud-detected or invalid-payment breaks out of the loop. -/
def retryLoop (execs : Nat → Except GoError PaymentResult) :
    Nat → Nat → GoError → Except GoError PaymentResult × Nat
  | _, 0, lastErr => (.error lastErr, 0)
  | attempt, fuel + 1, _ =>
    match execs attempt with
    | .ok r => (.ok r, 1)
    | .error e =>
      if IsErrorCode e .fraudDetected || IsErrorCode e .invalidPayment then
        (.error e, 1)
      else
        let res := retryLoop execs (attempt + 1) fuel e
        (res.1, res.2 + 1)

def executeWithRetry (retryAttempts : Nat)
    (execs : Nat → Except GoError PaymentResult) :
    Except GoError PaymentResult × Nat :=
  retryLoop execs 0 (retryAttempts + 1) (errNew .internalError "no attempts made")

/-- Per-attempt oracle inputs: the environment of attempt `k` supplies its
clock, random draws and generated identifiers. -/
structure AttemptEnv where
  env : Env
  txid : String
  schedId : String

/-- CheckoutFacade.executePaymentStrategy: default the strategy name to
instant, build the strategy, then run it under the retry loop, each attempt
processing the decorated payment chain anew. -/
def executePaymentStrategy (cfg : Config) (envs : Nat → AttemptEnv)
    (chain : List Dec) (kind : PaymentKind) (amount : ℚ)
    (options : CheckoutOptions) : Except GoError PaymentResult :=
  let strategyType :=
    if options.paymentStrategy = "" then "instant" else options.paymentStrategy
  match CreateStrategy strategyType with
  | .error e => .error e
  | .ok strat =>
    (executeWithRetry cfg.payment.retryAttempts fun k =>
      (strat.execute (envs k).schedId
        (fun a =>
          (processChain (envs k).env (basePaymentProcess kind (envs k).txid) chain a).1)
        amount).1).1

/-- CheckoutFacade.validateInventory: every line checked before any
mutation; a check failure or a shortfall is an inventory error. -/
def validateInventory (repo : Repo) : List CartItem → Option GoError
  | [] => none
  | item :: rest =>
    match checkAvailability repo item.productID item.quantity with
    | .error e => some (errWrap e .inventoryError "failed to check inventory")
    | .ok false => some (errNew .inventoryError "insufficient inventory for product")
    | .ok true => validateInventory repo rest

/-- CheckoutFacade.reserveInventory: decrement stock line by line; a failure
aborts and leaves the decrements already made in place. -/
def reserveInventory (repo : Repo) : List CartItem → Repo × Option GoError
  | [] => (repo, none)
  | item :: rest =>
    match reserveStock repo item.productID item.quantity with
    | .error e => (repo, some (errWrap e .inventoryError "failed to reserve inventory"))
    | .ok repo1 => reserveInventory repo1 rest

/-- CheckoutFacade.rollbackInventory: release every line, logging (and
ignoring) individual failures. -/
def rollbackInventory (repo : Repo) : List CartItem → Repo
  | [] => repo
  | item :: rest =>
    match releaseStock repo item.productID item.quantity with
    | .error _ => rollbackInventory repo rest
    | .ok repo1 => rollbackInventory repo1 rest

/-- Integer metadata lookup with the Go type-assertion default. -/
def metaGetInt (m : Metadata) (k : String) : ℤ :=
  match m.get k with
  | some (.int n) => n
  | _ => 0

/-- Numeric metadata lookup with the Go type-assertion default. -/
def metaGetNum (m : Metadata) (k : String) : ℚ :=
  match m.get k with
  | some (.num q) => q
  | _ => 0

/-- CustomerService.UpdateLoyaltyPoints. -/
def serviceUpdateLoyaltyPoints (repo : Repo) (customerID : String)
    (earned redeemed : ℤ) : Except GoError Repo :=
  match repo.getCustomer customerID with
  | .error e => .error e
  | .ok c => repo.updateCustomer { c with loyaltyPoints := c.loyaltyPoints + earned - redeemed }

structure ReceiptItem where
  productID : String
  productName : String
  sku : String
  quantity : ℤ
  unitPrice : ℚ
  total : ℚ
deriving DecidableEq, Repr

structure Receipt where
  id : String
  transactionID : String
  customerID : String
  customerName : String
  customerEmail : String
  items : List ReceiptItem
  subtotal : ℚ
  discount : ℚ
  tax : ℚ
  cashback : ℚ
  loyaltyPoints : ℤ
  total : ℚ
  paymentMethod : String
  appliedDecorators : List String
deriving DecidableEq, Repr

/-- CheckoutFacade.generateReceipt. -/
def generateReceipt (receiptId : String) (transaction : Transaction) (cart : Cart)
    (customer : Customer) (result : PaymentResult) : Receipt :=
  { id := receiptId
    transactionID := transaction.id
    customerID := customer.id
    customerName := customer.name
    customerEmail := customer.email
    items := cart.items.map fun item =>
      { productID := item.productID, productName := item.productName
        sku := item.productSKU, quantity := item.quantity
        unitPrice := item.price, total := item.price * (item.quantity : ℚ) }
    subtotal := cart.getTotal
    discount := metaGetNum result.metadata "discount_amount"
    tax := metaGetNum result.metadata "tax_amount"
    cashback := metaGetNum result.metadata "cashback_amount"
    loyaltyPoints := metaGetInt result.metadata "loyalty_points_earned"
    total := result.amount
    paymentMethod := result.paymentMethod
    appliedDecorators := result.appliedDecorators }

/-- CheckoutFacade.ProcessOrder over the repository state: validate, then
reserve, then build and decorate the payment, then execute the strategy
under retry; every failure is wrapped in a payment-failed envelope naming
the stage (handleError) and, after the reservation stage, rolls the reserved
stock back; on success loyalty points are updated (a failure there only
logged), the transaction is persisted (a failure there only logged) and the
receipt returned.  The failed transaction object of the error paths is
in-memory only and never persisted.  Event emission is fire-and-forget and
outside the state model. -/
def processOrder (cfg : Config) (envs : Nat → AttemptEnv) (txId receiptId : String)
    (repo : Repo) (cart : Cart) (customer : Customer) (options : CheckoutOptions) :
    Except GoError Receipt × Repo :=
  let transaction : Transaction :=
    { id := txId, customerID := customer.id, amount := cart.getTotal
      status := .pending, paymentMethod := options.paymentMethod, errorMessage := "" }
  match validateInventory repo cart.items with
  | some e => (.error (errWrap e .paymentFailed "inventory validation failed"), repo)
  | none =>
  match reserveInventory repo cart.items with
  | (repo1, some e) =>
    (.error (errWrap e .paymentFailed "inventory reservation failed"), repo1)
  | (repo1, none) =>
  match createPayment options.paymentMethod with
  | .error e =>
    (.error (errWrap e .paymentFailed "payment creation failed"),
     rollbackInventory repo1 cart.items)
  | .ok kind =>
  match createDecoratorChain cfg (envs 0).env.now options.enabledDecorators options customer with
  | .error e =>
    (.error (errWrap e .paymentFailed "decorator application failed"),
     rollbackInventory repo1 cart.items)
  | .ok chain =>
  match executePaymentStrategy cfg envs chain kind cart.getTotal options with
  | .error e =>
    (.error (errWrap e .paymentFailed "payment processing failed"),
     rollbackInventory repo1 cart.items)
  | .ok result =>
    let transaction := { transaction with status := .completed }
    let earned := metaGetInt result.metadata "loyalty_points_earned"
    let redeemed := metaGetInt result.metadata "loyalty_points_redeemed"
    let repo2 :=
      if earned > 0 ∨ redeemed > 0 then
        match serviceUpdateLoyaltyPoints repo1 customer.id earned redeemed with
        | .ok r => r
        | .error _ => repo1
      else repo1
    let receipt := generateReceipt receiptId transaction cart customer result
    let repo3 :=
      match repo2.createTransaction transaction with
      | .ok r => r
      | .error _ => repo2
    (.ok receipt, repo3)

/-! ### Shared concrete material for witnesses and counterexamples -/

/-- A minimal always-successful Payment used to instantiate abstract wrapped
payments in witnesses: it echoes the amount, as the base instruments do. -/
def testPay (txid : String) : PaymentFn := fun amount =>
  .ok { success := true, transactionID := txid, amount := amount
        originalAmount := amount, processedAmount := amount, currency := "USD"
        paymentMethod := "test", message := "", metadata := []
        appliedDecorators := [] }

/-- A fixed environment for witnesses: geolocation draw 99 (pass), risk draw
0, clock at 0. -/
def env0 : Env := { now := 0, riskRand := 0, geoRand := 99 }

/-! ### Claim theorems -/

/-- C1: the spec (and the retry loop of CheckoutFacade.executeWithRetry)
requires failures classified fraud-detected or invalid-payment to abort
retry immediately, the classification surviving the payment-failed wrapping
applied by the strategies.  The code violates this: `IsErrorCode` resolves
to the first AppError met while unwrapping, so a fraud-detected error that
the instant strategy wraps in a payment-failed envelope is no longer
recognizable as fraud-detected, and the retry loop runs all
retryAttempts + 1 = 4 attempts instead of aborting after 1. -/
theorem C1_fraud_classification_lost_in_wrapping :
    IsErrorCode (errNew .fraudDetected "transaction blocked: high fraud risk")
      .fraudDetected = true ∧
    (InstantPaymentStrategy.Execute { minAmount := 1, maxAmount := 10000 }
        (fun _ => .error (errNew .fraudDetected "transaction blocked: high fraud risk"))
        100).1 =
      .error (errWrap (errNew .fraudDetected "transaction blocked: high fraud risk")
        .paymentFailed "instant payment processing failed") ∧
    IsErrorCode
      (errWrap (errNew .fraudDetected "transaction blocked: high fraud risk")
        .paymentFailed "instant payment processing failed") .fraudDetected = false ∧
    executeWithRetry 3
      (fun _ =>
        (InstantPaymentStrategy.Execute { minAmount := 1, maxAmount := 10000 }
          (fun _ => .error (errNew .fraudDetected "transaction blocked: high fraud risk"))
          100).1) =
      (.error (errWrap (errNew .fraudDetected "transaction blocked: high fraud risk")
        .paymentFailed "instant payment processing failed"), 4) ∧
    (4 : Nat) ≠ 1 := by
  refine ⟨rfl, rfl, rfl, rfl, by decide⟩

/-- Positivity of every part amount makes the per-part scan pass. -/
theorem splitItemsValidate_none (l : List SplitPaymentItem)
    (h : ∀ item ∈ l, 0 < item.amount) : splitItemsValidate l = none := by
  induction l with
  | nil => rfl
  | cons item rest ih =>
    have h0 := h item (List.mem_cons_self _ _)
    have : ¬ item.amount ≤ 0 := not_le.mpr h0
    simp only [splitItemsValidate, if_neg this]
    exact ih fun x hx => h x (List.mem_cons_of_mem _ hx)

/-- C3: with all part amounts positive and a positive total, a two-decimal
mismatch between the part sum and the total makes Execute return a
validation error before the Process of any part is invoked (empty trace). -/
theorem C3_split_sum_mismatch_rejected_before_processing
    (s : SplitPaymentStrategy) (totalAmount : ℚ)
    (hpos : ∀ item ∈ s.payments, 0 < item.amount)
    (htot : 0 < totalAmount)
    (hmm : render2 ((s.payments.map SplitPaymentItem.amount).sum) ≠ render2 totalAmount) :
    s.Execute totalAmount =
      (.error (errNew .validation "split payment amounts do not match total amount"),
       []) := by
  have hva : s.ValidateAmount totalAmount = none := by
    simp only [SplitPaymentStrategy.ValidateAmount, if_neg (not_le.mpr htot)]
    exact splitItemsValidate_none s.payments hpos
  simp only [SplitPaymentStrategy.Execute, hva, if_pos hmm]

/-- Witness for C3: two parts of 30 against a total of 100. -/
theorem C3_witness :
    SplitPaymentStrategy.Execute
      ⟨[⟨testPay "a", 30⟩, ⟨testPay "b", 30⟩]⟩ 100 =
      (.error (errNew .validation "split payment amounts do not match total amount"),
       []) :=
  C3_split_sum_mismatch_rejected_before_processing
    ⟨[⟨testPay "a", 30⟩, ⟨testPay "b", 30⟩]⟩ 100
    (by
      intro item h
      simp only [List.mem_cons, List.not_mem_nil, or_false] at h
      rcases h with h | h <;> subst h <;> norm_num)
    (by norm_num)
    (by norm_num [render2])

/-- The part-processing loop on an all-successful list of parts: every part
is invoked at its own amount, in order, and the collected results line up
with the parts. -/
theorem runSplitParts_ok (l : List SplitPaymentItem)
    (hok : ∀ item ∈ l, ∃ r, item.payment item.amount = .ok r) :
    ∃ results, runSplitParts l = (.ok results, l.map SplitPaymentItem.amount) ∧
      results.length = l.length ∧
      ∀ item0 rest, l = item0 :: rest →
        ∃ r0 rs, results = r0 :: rs ∧ item0.payment item0.amount = .ok r0 := by
  induction l with
  | nil =>
    exact ⟨[], rfl, rfl, fun item0 rest h => by cases h⟩
  | cons item rest ih =>
    obtain ⟨r, hr⟩ := hok item (List.mem_cons_self _ _)
    obtain ⟨results, hrun, hlen, _⟩ :=
      ih fun x hx => hok x (List.mem_cons_of_mem _ hx)
    refine ⟨r :: results, ?_, by simp [hlen], ?_⟩
    · simp only [runSplitParts, hr, hrun]
      rfl
    · intro item0 rest0 h
      obtain ⟨h1, h2⟩ := List.cons.inj h
      subst h1
      exact ⟨r, results, rfl, hr⟩

/-- C8: with 1 to 5 positive parts matching the total to two decimals and
every part succeeding, Execute succeeds; the combined result carries the
transaction id of the first part, the payment method tag `split`, the sum of
the part amounts as ProcessedAmount, and one split-details metadata entry
per part. -/
theorem C8_split_success_combines_parts
    (s : SplitPaymentStrategy) (totalAmount : ℚ)
    (hlen : 1 ≤ s.payments.length ∧ s.payments.length ≤ 5)
    (hpos : ∀ item ∈ s.payments, 0 < item.amount)
    (htot : 0 < totalAmount)
    (hsum : render2 ((s.payments.map SplitPaymentItem.amount).sum) = render2 totalAmount)
    (hok : ∀ item ∈ s.payments, ∃ r, item.payment item.amount = .ok r) :
    ∃ c, s.Execute totalAmount = (.ok c, s.payments.map SplitPaymentItem.amount) ∧
      c.paymentMethod = "split" ∧
      c.processedAmount = (s.payments.map SplitPaymentItem.amount).sum ∧
      (∃ l, c.metadata.get "split_details" = some (.details l) ∧
        l.length = s.payments.length) ∧
      ∀ item0 rest, s.payments = item0 :: rest →
        ∃ r0, item0.payment item0.amount = .ok r0 ∧ c.transactionID = r0.transactionID := by
  have hva : s.ValidateAmount totalAmount = none := by
    simp only [SplitPaymentStrategy.ValidateAmount, if_neg (not_le.mpr htot)]
    exact splitItemsValidate_none s.payments hpos
  obtain ⟨results, hrun, hrlen, hhead⟩ := runSplitParts_ok s.payments hok
  refine ⟨{ success := true
            transactionID := firstTransactionID results
            amount := totalAmount
            originalAmount := totalAmount
            processedAmount := (s.payments.map SplitPaymentItem.amount).sum
            currency := "USD"
            paymentMethod := "split"
            message := "Split payment completed"
            metadata :=
              [("payment_strategy", .str "split"),
               ("payment_count", .int (s.payments.length : ℤ)),
               ("split_details", .details (getSplitDetails results))]
            appliedDecorators := [] }, ?_, rfl, rfl, ⟨getSplitDetails results, ?_, ?_⟩, ?_⟩
  · simp only [SplitPaymentStrategy.Execute, hva, if_neg (not_ne_iff.mpr hsum), hrun]
  · simp [Metadata.get]
  · simp [getSplitDetails, hrlen]
  · intro item0 rest0 h
    obtain ⟨r0, rs, hres, hr0⟩ := hhead item0 rest0 h
    exact ⟨r0, hr0, by simp [hres, firstTransactionID]⟩

/-- Witness for C8: parts of 60 and 40 against a total of 100, both backed
by the always-successful test payment. -/
theorem C8_witness :
    ∃ c, SplitPaymentStrategy.Execute ⟨[⟨testPay "a", 60⟩, ⟨testPay "b", 40⟩]⟩ 100 =
        (.ok c, List.map SplitPaymentItem.amount [⟨testPay "a", 60⟩, ⟨testPay "b", 40⟩]) ∧
      c.paymentMethod = "split" ∧
      c.processedAmount =
        (List.map SplitPaymentItem.amount [⟨testPay "a", 60⟩, ⟨testPay "b", 40⟩]).sum ∧
      (∃ l, c.metadata.get "split_details" = some (.details l) ∧
        l.length = (⟨[⟨testPay "a", 60⟩, ⟨testPay "b", 40⟩]⟩ : SplitPaymentStrategy).payments.length) ∧
      ∀ item0 rest,
        (⟨[⟨testPay "a", 60⟩, ⟨testPay "b", 40⟩]⟩ : SplitPaymentStrategy).payments = item0 :: rest →
        ∃ r0, item0.payment item0.amount = .ok r0 ∧ c.transactionID = r0.transactionID :=
  C8_split_success_combines_parts ⟨[⟨testPay "a", 60⟩, ⟨testPay "b", 40⟩]⟩ 100
    (by constructor <;> norm_num)
    (by
      intro item h
      simp only [List.mem_cons, List.not_mem_nil, or_false] at h
      rcases h with h | h <;> subst h <;> norm_num)
    (by norm_num)
    (by norm_num [render2])
    (by
      intro item h
      simp only [List.mem_cons, List.not_mem_nil, or_false] at h
      rcases h with h | h <;> subst h <;> exact ⟨_, rfl⟩)

/-- The first scheduled installment of a non-empty deferred schedule is the
interest-adjusted total divided evenly. -/
theorem firstScheduled_createDeferredSchedule (schedId : String) (amount : ℚ)
    (installments : Nat) (interestRate : ℚ) (h : 0 < installments) :
    firstScheduled (CreateDeferredSchedule schedId amount installments interestRate).payments =
      amount * (1 + interestRate / 100) / (installments : ℚ) := by
  obtain ⟨m, rfl⟩ := Nat.exists_eq_succ_of_ne_zero (Nat.pos_iff_ne_zero.mp h)
  simp [CreateDeferredSchedule, firstScheduled, List.range_succ_eq_map]

/-- Counterexample for C4: a deferred strategy with range [-10, 10000] and
an in-range amount of -5 is rejected by the amount validator (the trailing
negativity check) without invoking the wrapped Payment at all, while the
claim asserts exactly one Process invocation for every in-range amount. -/
theorem C4_counterexample :
    (-10 : ℚ) ≤ -5 ∧ (-5 : ℚ) ≤ 10000 ∧
    DeferredPaymentStrategy.Execute
        { minAmount := -10, maxAmount := 10000, installments := 3, interestRate := 0 }
        "sched" (testPay "t") (-5) =
      (.error (.simple "amount cannot be negative"), ([] : List ℚ)) :=
  ⟨by norm_num, by norm_num, rfl⟩

/-- C4 (amended): within the amount range and for non-negative amounts (the
amount validator additionally rejects negative amounts, which matters only
for ranges extending below zero), the deferred strategy invokes the wrapped
Payment exactly once, at the first installment amount
amount times (1 + rate/100) over the installment count; on success the
result carries the first installment in Amount and ProcessedAmount and the
schedule total (the pre-interest amount) in OriginalAmount; with three
installments at zero interest the first installment is a third of the
total. -/
theorem C4_deferred_processes_first_installment_only
    (s : DeferredPaymentStrategy) (schedId : String) (p : PaymentFn) (amount : ℚ)
    (hN : 0 < s.installments) (hpos : 0 ≤ amount)
    (hmin : s.minAmount ≤ amount) (hmax : amount ≤ s.maxAmount) :
    (s.Execute schedId p amount).2 =
      [amount * (1 + s.interestRate / 100) / (s.installments : ℚ)] ∧
    (∀ r₀, p (amount * (1 + s.interestRate / 100) / (s.installments : ℚ)) = .ok r₀ →
      ∃ res, (s.Execute schedId p amount).1 = .ok res ∧
        res.amount = amount * (1 + s.interestRate / 100) / (s.installments : ℚ) ∧
        res.processedAmount = amount * (1 + s.interestRate / 100) / (s.installments : ℚ) ∧
        res.originalAmount = amount) ∧
    (s.installments = 3 → s.interestRate = 0 →
      amount * (1 + s.interestRate / 100) / (s.installments : ℚ) = amount / 3) := by
  have hval : amountValidate amount s.minAmount s.maxAmount = none := by
    simp only [amountValidate, if_neg (not_lt.mpr hmin), if_neg (not_lt.mpr hmax),
      if_neg (not_lt.mpr hpos)]
  have hfirst := firstScheduled_createDeferredSchedule schedId amount s.installments
    s.interestRate hN
  refine ⟨?_, ?_, ?_⟩
  · simp only [DeferredPaymentStrategy.Execute, hval, hfirst]
    cases hp : p (amount * (1 + s.interestRate / 100) / (s.installments : ℚ)) <;> rfl
  · intro r₀ hp
    simp only [DeferredPaymentStrategy.Execute, hval, hfirst, hp]
    exact ⟨_, rfl, rfl, rfl, rfl⟩
  · intro h3 h0
    rw [h3, h0]
    norm_num

/-- Witness for C4: three installments at zero interest over an amount of
300, within the default range. -/
theorem C4_witness :
    (DeferredPaymentStrategy.Execute
        { minAmount := 100, maxAmount := 10000, installments := 3, interestRate := 0 }
        "sched" (testPay "t") 300).2 =
      [300 * (1 + (0 : ℚ) / 100) / ((3 : Nat) : ℚ)] ∧
    (∀ r₀, testPay "t" (300 * (1 + (0 : ℚ) / 100) / ((3 : Nat) : ℚ)) = .ok r₀ →
      ∃ res, (DeferredPaymentStrategy.Execute
          { minAmount := 100, maxAmount := 10000, installments := 3, interestRate := 0 }
          "sched" (testPay "t") 300).1 = .ok res ∧
        res.amount = 300 * (1 + (0 : ℚ) / 100) / ((3 : Nat) : ℚ) ∧
        res.processedAmount = 300 * (1 + (0 : ℚ) / 100) / ((3 : Nat) : ℚ) ∧
        res.originalAmount = 300) ∧
    ((3 : Nat) = 3 → (0 : ℚ) = 0 →
      300 * (1 + (0 : ℚ) / 100) / ((3 : Nat) : ℚ) = 300 / 3) :=
  C4_deferred_processes_first_installment_only
    { minAmount := 100, maxAmount := 10000, installments := 3, interestRate := 0 }
    "sched" (testPay "t") 300 (by norm_num) (by norm_num) (by norm_num) (by norm_num)

/-- An unexpired (or absent) expiry timestamp makes the discount expiry
guard pass. -/
theorem discount_expiry_guard_false (cfg : DiscountConfig) (env : Env)
    (h : ∀ exp ∈ cfg.expiryDate, env.now ≤ exp) :
    (cfg.expiryDate.map fun exp => decide (exp < env.now)).getD false = false := by
  cases hc : cfg.expiryDate with
  | none => rfl
  | some exp =>
    simp only [Option.map_some', Option.getD_some, decide_eq_false_iff_not, not_lt]
    exact h exp (hc ▸ rfl)

/-- C5: a non-binding percentage discount of 10 percent on 100 charges 90, a
non-binding fixed discount of 20 on 100 charges 80, and a passed expiry
timestamp fails the decorator for every amount before the wrapped Payment is
reached. -/
theorem C5_discount_percentage_fixed_and_expiry :
    (∀ (env : Env) (base : PaymentFn) (cfg : DiscountConfig) (r₀ : PaymentResult),
      cfg.discountType = "percentage" → cfg.discountValue = 10 →
      cfg.minAmount ≤ 100 → (cfg.maxDiscount ≤ 0 ∨ 10 ≤ cfg.maxDiscount) →
      (∀ exp ∈ cfg.expiryDate, env.now ≤ exp) →
      base 90 = .ok r₀ →
      ∃ r, processChain env base [.discount cfg] 100 = (.ok r, [90]) ∧
        r.processedAmount = 90) ∧
    (∀ (env : Env) (base : PaymentFn) (cfg : DiscountConfig) (r₀ : PaymentResult),
      cfg.discountType = "fixed" → cfg.discountValue = 20 →
      cfg.minAmount ≤ 100 → (cfg.maxDiscount ≤ 0 ∨ 20 ≤ cfg.maxDiscount) →
      (∀ exp ∈ cfg.expiryDate, env.now ≤ exp) →
      base 80 = .ok r₀ →
      ∃ r, processChain env base [.discount cfg] 100 = (.ok r, [80]) ∧
        r.processedAmount = 80) ∧
    (∀ (env : Env) (base : PaymentFn) (cfg : DiscountConfig) (amount : ℚ) (exp : ℤ),
      cfg.expiryDate = some exp → exp < env.now →
      processChain env base [.discount cfg] amount =
        (.error (errNew .validation "discount code has expired"), [])) := by
  refine ⟨?_, ?_, ?_⟩
  · intro env base cfg r₀ htype hval hminle hmaxd hexp hbase
    have hcd : calculateDiscount cfg 100 = 10 := by
      unfold calculateDiscount
      rw [htype, hval]
      norm_num
      have hnb : ¬ (0 < cfg.maxDiscount ∧ cfg.maxDiscount < 10) := by
        rintro ⟨ha, hb⟩; rcases hmaxd with h | h <;> linarith
      rw [if_neg hnb]
      norm_num
    have h90 : (100 : ℚ) - 10 = 90 := by norm_num
    have hng : ¬ (90 : ℚ) < 0 := by norm_num
    simp only [processChain, discount_expiry_guard_false cfg env hexp,
      Bool.false_eq_true, if_false, if_neg (not_lt.mpr hminle), hcd, h90,
      if_neg hng, hbase]
    exact ⟨_, rfl, rfl⟩
  · intro env base cfg r₀ htype hval hminle hmaxd hexp hbase
    have hcd : calculateDiscount cfg 100 = 20 := by
      unfold calculateDiscount
      rw [htype, hval]
      norm_num
      have hnb : ¬ (0 < cfg.maxDiscount ∧ cfg.maxDiscount < 20) := by
        rintro ⟨ha, hb⟩; rcases hmaxd with h | h <;> linarith
      rw [if_neg hnb]
      norm_num
    have h80 : (100 : ℚ) - 20 = 80 := by norm_num
    have hng : ¬ (80 : ℚ) < 0 := by norm_num
    simp only [processChain, discount_expiry_guard_false cfg env hexp,
      Bool.false_eq_true, if_false, if_neg (not_lt.mpr hminle), hcd, h80,
      if_neg hng, hbase]
    exact ⟨_, rfl, rfl⟩
  · intro env base cfg amount exp hset hpassed
    simp only [processChain, hset, Option.map_some', Option.getD_some,
      decide_eq_true_eq, if_pos hpassed]

/-- Witness for C5: a fresh 10-percent discount on 100 over the test
payment, and the same configuration with an expiry in the past. -/
theorem C5_witness :
    (∃ r, processChain env0 (testPay "t")
        [.discount ⟨"percentage", 10, 0, 0, none, "C"⟩] 100 = (.ok r, [90]) ∧
      r.processedAmount = 90) ∧
    processChain env0 (testPay "t")
        [.discount ⟨"percentage", 10, 0, 0, some (-5), "C"⟩] 100 =
      (.error (errNew .validation "discount code has expired"), []) :=
  ⟨C5_discount_percentage_fixed_and_expiry.1 env0 (testPay "t")
      ⟨"percentage", 10, 0, 0, none, "C"⟩ _ rfl rfl (by norm_num) (Or.inl le_rfl)
      (fun exp h => absurd h (Option.not_mem_none exp)) rfl,
   C5_discount_percentage_fixed_and_expiry.2.2 env0 (testPay "t")
      ⟨"percentage", 10, 0, 0, some (-5), "C"⟩ 100 (-5) rfl (by norm_num [env0])⟩

/-- Counterexample for C6: with 15 points at ratio 1 against an amount of
10 and a redemption cap of 200 percent, the cap check passes but the charge
is clamped at zero, not reduced by exactly 15. -/
theorem C6_counterexample :
    loyaltyConfigValidate ⟨15, 15, 1, 200⟩ = none ∧
    (15 : ℚ) / 1 ≤ 10 * ((200 : ℚ) / 100) ∧
    ∃ r, processChain env0 (testPay "t") [.loyaltyPoints ⟨15, 15, 1, 200⟩] 10 =
        (.ok r, [0]) ∧ r.processedAmount = 0 ∧ r.processedAmount ≠ 10 - (15 : ℚ) / 1 := by
  refine ⟨rfl, by norm_num, ?_⟩
  norm_num [processChain, testPay, goIntTrunc, Metadata.set]

/-- C6 (amended): redemption beyond maxRedemptionPercentage of the amount
fails before the wrapped Payment is invoked; within the cap, a successful
wrapped Payment receives and records a charge of the amount reduced by
pointsToRedeem over the ratio, clamped below at zero.  A positive ratio is
assumed, matching the finite-arithmetic domain of the Go code. -/
theorem C6_loyalty_cap_and_clamped_charge
    (env : Env) (base : PaymentFn) (cfg : LoyaltyPointsConfig) (amount : ℚ)
    (hvalid : loyaltyConfigValidate cfg = none)
    (hratio : 0 < cfg.pointsToCurrencyRatio) :
    ((cfg.pointsToRedeem : ℚ) / cfg.pointsToCurrencyRatio >
        amount * (cfg.maxRedemptionPercentage / 100) →
      processChain env base [.loyaltyPoints cfg] amount =
        (.error (errNew .validation "loyalty points redemption exceeds maximum"), [])) ∧
    (∀ r₀, (cfg.pointsToRedeem : ℚ) / cfg.pointsToCurrencyRatio ≤
        amount * (cfg.maxRedemptionPercentage / 100) →
      base (if amount - (cfg.pointsToRedeem : ℚ) / cfg.pointsToCurrencyRatio < 0 then 0
            else amount - (cfg.pointsToRedeem : ℚ) / cfg.pointsToCurrencyRatio) = .ok r₀ →
      ∃ r, processChain env base [.loyaltyPoints cfg] amount =
          (.ok r,
           [if amount - (cfg.pointsToRedeem : ℚ) / cfg.pointsToCurrencyRatio < 0 then 0
            else amount - (cfg.pointsToRedeem : ℚ) / cfg.pointsToCurrencyRatio]) ∧
        r.processedAmount =
          (if amount - (cfg.pointsToRedeem : ℚ) / cfg.pointsToCurrencyRatio < 0 then 0
           else amount - (cfg.pointsToRedeem : ℚ) / cfg.pointsToCurrencyRatio)) := by
  constructor
  · intro hgt
    simp only [processChain, if_pos hgt]
  · intro r₀ hle hbase
    simp only [processChain, if_neg (not_lt.mpr hle), hbase]
    exact ⟨_, rfl, rfl⟩

/-- Witness for C6 (amended): 10 points at ratio 1 against an amount of 100
under a 50-percent cap, over the test payment. -/
theorem C6_witness :
    (((10 : ℤ) : ℚ) / 1 > (100 : ℚ) * (50 / 100) →
      processChain env0 (testPay "t") [.loyaltyPoints ⟨100, 10, 1, 50⟩] 100 =
        (.error (errNew .validation "loyalty points redemption exceeds maximum"), [])) ∧
    (∀ r₀, ((10 : ℤ) : ℚ) / 1 ≤ (100 : ℚ) * (50 / 100) →
      testPay "t" (if (100 : ℚ) - ((10 : ℤ) : ℚ) / 1 < 0 then 0
            else (100 : ℚ) - ((10 : ℤ) : ℚ) / 1) = .ok r₀ →
      ∃ r, processChain env0 (testPay "t") [.loyaltyPoints ⟨100, 10, 1, 50⟩] 100 =
          (.ok r,
           [if (100 : ℚ) - ((10 : ℤ) : ℚ) / 1 < 0 then 0
            else (100 : ℚ) - ((10 : ℤ) : ℚ) / 1]) ∧
        r.processedAmount =
          (if (100 : ℚ) - ((10 : ℤ) : ℚ) / 1 < 0 then 0
           else (100 : ℚ) - ((10 : ℤ) : ℚ) / 1)) :=
  C6_loyalty_cap_and_clamped_charge env0 (testPay "t") ⟨100, 10, 1, 50⟩ 100
    rfl (by norm_num)

/-- Counterexample for C2: a chain consisting of a single tax decorator at
rate 10 over the test payment, called with 100, returns OriginalAmount 110
(the base instrument wrote its own received amount and the tax decorator
only overwrites a zero OriginalAmount), not the amount the caller passed to
the outermost decorator. -/
theorem C2_counterexample :
    ∃ r, processChain env0 (testPay "t")
        [.tax ⟨"X", [("X", 10)], 0⟩] 100 = (.ok r, [110]) ∧
      r.originalAmount = 110 ∧ r.originalAmount ≠ 100 := by
  norm_num [processChain, testPay, TaxConfig.rate, Metadata.set]

/-- C2 (amended): OriginalAmount is not in general the amount passed to the
outermost decorator — only the discount decorator writes it
unconditionally, while tax and loyalty write it only when it is still zero
and the base instruments always set it to their own received amount.  When
the outermost decorator is a discount decorator, every successful chain
call does return the caller-passed amount in OriginalAmount. -/
theorem C2_outermost_discount_preserves_original_amount
    (env : Env) (base : PaymentFn) (cfg : DiscountConfig) (rest : List Dec)
    (amount : ℚ) (r : PaymentResult) (tr : List ℚ)
    (h : processChain env base (.discount cfg :: rest) amount = (.ok r, tr)) :
    r.originalAmount = amount := by
  simp only [processChain] at h
  split at h
  · simp at h
  · split at h
    · simp at h
    · split at h
      · simp at h
      · simp only [Prod.mk.injEq, Except.ok.injEq] at h
        obtain ⟨h1, h2⟩ := h
        subst h1
        rfl

/-- Witness for C2 (amended): a 10-percent discount decorator outermost
(and alone) over the test payment at 100. -/
theorem C2_witness :
    (⟨true, "t", 90, 100, 90, "USD", "test", "",
      [("discount_type", .str "percentage"), ("discount_value", .num 10),
       ("discount_amount", .num 10), ("discount_code", .str "C")],
      ["discount"]⟩ : PaymentResult).originalAmount = 100 :=
  C2_outermost_discount_preserves_original_amount env0 (testPay "t")
    ⟨"percentage", 10, 0, 0, none, "C"⟩ [] 100 _ [90]
    (by norm_num [processChain, testPay, calculateDiscount, Metadata.set]; decide)

/-- A cart line whose product exists with a stock shortfall makes the
inventory validation scan fail. -/
theorem validateInventory_some_of_shortfall (repo : Repo) (items : List CartItem)
    (h : ∃ item ∈ items, ∃ p, repo.getProduct item.productID = .ok p ∧
      p.stock < item.quantity) :
    ∃ e, validateInventory repo items = some e := by
  induction items with
  | nil =>
    obtain ⟨item, hmem, _⟩ := h
    cases hmem
  | cons item rest ih =>
    obtain ⟨witem, hmem, p, hget, hlt⟩ := h
    rcases hca : checkAvailability repo item.productID item.quantity with e | b
    · exact ⟨errWrap e .inventoryError "failed to check inventory",
        by simp [validateInventory, hca]⟩
    · cases b with
      | false => exact ⟨errNew .inventoryError "insufficient inventory for product",
          by simp [validateInventory, hca]⟩
      | true =>
        have hrest : ∃ item ∈ rest, ∃ p, repo.getProduct item.productID = .ok p ∧
            p.stock < item.quantity := by
          rcases List.mem_cons.mp hmem with heq | hmem'
          · subst heq
            exfalso
            unfold checkAvailability at hca
            rw [hget] at hca
            simp only [Except.ok.injEq, decide_eq_true_eq] at hca
            exact absurd hca (not_le.mpr hlt)
          · exact ⟨witem, hmem', p, hget, hlt⟩
        obtain ⟨e, he⟩ := ih hrest
        exact ⟨e, by simp [validateInventory, hca, he]⟩

/-- C7: when some cart line requests more units than the product has in
stock, ProcessOrder fails at inventory validation and returns the repository
untouched: no stock is mutated. -/
theorem C7_shortfall_fails_before_any_mutation
    (cfg : Config) (envs : Nat → AttemptEnv) (txId receiptId : String)
    (repo : Repo) (cart : Cart) (customer : Customer) (options : CheckoutOptions)
    (h : ∃ item ∈ cart.items, ∃ p, repo.getProduct item.productID = .ok p ∧
      p.stock < item.quantity) :
    ∃ e, processOrder cfg envs txId receiptId repo cart customer options =
      (.error e, repo) := by
  obtain ⟨e, he⟩ := validateInventory_some_of_shortfall repo cart.items h
  exact ⟨errWrap e .paymentFailed "inventory validation failed",
    by simp [processOrder, he]⟩

/-- Witness for C7: a single line asking 2 units of a product with stock 1. -/
theorem C7_witness :
    ∃ e, processOrder ⟨⟨3⟩, ⟨⟨false, 0⟩, ⟨false, 0, 0, 0⟩, ⟨false, 0, 0, 0⟩,
        ⟨false, [], 0⟩, ⟨false, 0, 0⟩⟩⟩ (fun _ => ⟨env0, "tx", "sched"⟩) "t1" "r1"
      ⟨[("p1", ⟨"p1", "Widget", 10, "SKU1", 1⟩)], [("c1", ⟨"c1", "e", "n", 0, ""⟩)], []⟩
      ⟨"cart1", "c1", [⟨"p1", "Widget", "SKU1", 2, 10⟩]⟩
      ⟨"c1", "e", "n", 0, ""⟩ ⟨"credit_card", "", [], "", 0⟩ =
      (.error e,
       ⟨[("p1", ⟨"p1", "Widget", 10, "SKU1", 1⟩)], [("c1", ⟨"c1", "e", "n", 0, ""⟩)], []⟩) :=
  C7_shortfall_fails_before_any_mutation _ _ "t1" "r1" _ _ _ _
    ⟨⟨"p1", "Widget", "SKU1", 2, 10⟩, by simp, ⟨"p1", "Widget", 10, "SKU1", 1⟩,
      rfl, by decide⟩

/-- Product updates do not touch the transaction store. -/
theorem updateProduct_transactions (repo : Repo) (p : Product) (repo1 : Repo)
    (h : repo.updateProduct p = .ok repo1) : repo1.transactions = repo.transactions := by
  unfold Repo.updateProduct at h
  split at h
  · simp only [Except.ok.injEq] at h
    subst h
    rfl
  · cases h

/-- Stock reservation does not touch the transaction store. -/
theorem reserveStock_transactions (repo : Repo) (pid : String) (q : ℤ) (repo1 : Repo)
    (h : reserveStock repo pid q = .ok repo1) : repo1.transactions = repo.transactions := by
  unfold reserveStock at h
  split at h
  · cases h
  · split at h
    · cases h
    · exact updateProduct_transactions _ _ _ h

/-- Stock release does not touch the transaction store. -/
theorem releaseStock_transactions (repo : Repo) (pid : String) (q : ℤ) (repo1 : Repo)
    (h : releaseStock repo pid q = .ok repo1) : repo1.transactions = repo.transactions := by
  unfold releaseStock at h
  split at h
  · cases h
  · exact updateProduct_transactions _ _ _ h

/-- The reservation loop never touches the transaction store, whether it
fails or not. -/
theorem reserveInventory_transactions (items : List CartItem) (repo : Repo) :
    (reserveInventory repo items).1.transactions = repo.transactions := by
  induction items generalizing repo with
  | nil => rfl
  | cons item rest ih =>
    unfold reserveInventory
    split
    · rfl
    · rename_i repo1 hres
      rw [ih repo1, reserveStock_transactions repo _ _ repo1 hres]

/-- The rollback loop never touches the transaction store. -/
theorem rollbackInventory_transactions (items : List CartItem) (repo : Repo) :
    (rollbackInventory repo items).transactions = repo.transactions := by
  induction items generalizing repo with
  | nil => rfl
  | cons item rest ih =>
    unfold rollbackInventory
    split
    · exact ih repo
    · rename_i repo1 hrel
      rw [ih repo1, releaseStock_transactions repo _ _ repo1 hrel]

/-- C9: a failing ProcessOrder never persists the transaction: on every
error path the transaction store of the returned repository equals the
initial one (CreateTransaction runs only on the success path). -/
theorem C9_failed_order_never_persists_transaction
    (cfg : Config) (envs : Nat → AttemptEnv) (txId receiptId : String)
    (repo : Repo) (cart : Cart) (customer : Customer) (options : CheckoutOptions)
    (e : GoError) (rf : Repo)
    (h : processOrder cfg envs txId receiptId repo cart customer options = (.error e, rf)) :
    rf.transactions = repo.transactions := by
  simp only [processOrder] at h
  split at h
  · rw [Prod.mk.injEq] at h
    rw [← h.2]
  · split at h
    · rename_i repo1 e1 hres
      rw [Prod.mk.injEq] at h
      rw [← h.2]
      have := reserveInventory_transactions cart.items repo
      rw [hres] at this
      exact this
    · rename_i repo1 hres
      have hrepo1 : repo1.transactions = repo.transactions := by
        have := reserveInventory_transactions cart.items repo
        rw [hres] at this
        exact this
      split at h
      · rw [Prod.mk.injEq] at h
        rw [← h.2, rollbackInventory_transactions, hrepo1]
      · split at h
        · rw [Prod.mk.injEq] at h
          rw [← h.2, rollbackInventory_transactions, hrepo1]
        · split at h
          · rw [Prod.mk.injEq] at h
            rw [← h.2, rollbackInventory_transactions, hrepo1]
          · simp at h

/-- Witness for C9: a checkout that reaches the strategy stage and fails
there (split strategies cannot be built by the facade path), leaving the
pre-existing transaction store as it was. -/
theorem C9_witness :
    ([("t0", ⟨"t0", "c1", 5, .completed, "credit_card", ""⟩)] :
        List (String × Transaction)) =
      [("t0", ⟨"t0", "c1", 5, .completed, "credit_card", ""⟩)] :=
  C9_failed_order_never_persists_transaction
    ⟨⟨3⟩, ⟨⟨false, 0⟩, ⟨false, 0, 0, 0⟩, ⟨false, 0, 0, 0⟩, ⟨false, [], 0⟩, ⟨false, 0, 0⟩⟩⟩
    (fun _ => ⟨env0, "tx", "sched"⟩) "t1" "r1"
    ⟨[("p1", ⟨"p1", "Widget", 10, "SKU1", 5⟩)],
     [("c1", ⟨"c1", "e", "n", 0, ""⟩)],
     [("t0", ⟨"t0", "c1", 5, .completed, "credit_card", ""⟩)]⟩
    ⟨"cart1", "c1", [⟨"p1", "Widget", "SKU1", 1, 10⟩]⟩
    ⟨"c1", "e", "n", 0, ""⟩ ⟨"credit_card", "split", [], "", 0⟩
    (errWrap (errNew .validation "split strategy must be created with CreateSplitStrategy")
      .paymentFailed "payment processing failed")
    ⟨[("p1", ⟨"p1", "Widget", 10, "SKU1", 5⟩)],
     [("c1", ⟨"c1", "e", "n", 0, ""⟩)],
     [("t0", ⟨"t0", "c1", 5, .completed, "credit_card", ""⟩)]⟩
    rfl

/-- With the split strategy requested, the facade strategy stage fails at
strategy creation for every chain, instrument and amount. -/
theorem executePaymentStrategy_split_fails (cfg : Config) (envs : Nat → AttemptEnv)
    (options : CheckoutOptions) (h : options.paymentStrategy = "split")
    (chain : List Dec) (kind : PaymentKind) (amount : ℚ) :
    executePaymentStrategy cfg envs chain kind amount options =
      .error (errNew .validation "split strategy must be created with CreateSplitStrategy") := by
  unfold executePaymentStrategy
  rw [h]
  exact rfl

/-- C10: a ProcessOrder call requesting the split strategy always fails,
returning a payment-failed-coded wrapped error, for every repository, cart,
customer and decorator configuration. -/
theorem C10_split_strategy_checkout_always_fails
    (cfg : Config) (envs : Nat → AttemptEnv) (txId receiptId : String)
    (repo : Repo) (cart : Cart) (customer : Customer) (options : CheckoutOptions)
    (h : options.paymentStrategy = "split") :
    ∃ e, (processOrder cfg envs txId receiptId repo cart customer options).1 = .error e ∧
      firstAppCode e = some .paymentFailed := by
  simp only [processOrder]
  split
  · exact ⟨_, rfl, rfl⟩
  · split
    · exact ⟨_, rfl, rfl⟩
    · split
      · exact ⟨_, rfl, rfl⟩
      · split
        · exact ⟨_, rfl, rfl⟩
        · split
          · exact ⟨_, rfl, rfl⟩
          · rename_i result hexec
            rw [executePaymentStrategy_split_fails cfg envs options h] at hexec
            cases hexec

/-- Witness for C10: the same concrete checkout as the C9 witness, with the
split strategy requested. -/
theorem C10_witness :
    ∃ e, (processOrder
        ⟨⟨3⟩, ⟨⟨false, 0⟩, ⟨false, 0, 0, 0⟩, ⟨false, 0, 0, 0⟩, ⟨false, [], 0⟩, ⟨false, 0, 0⟩⟩⟩
        (fun _ => ⟨env0, "tx", "sched"⟩) "t1" "r1"
        ⟨[("p1", ⟨"p1", "Widget", 10, "SKU1", 5⟩)], [("c1", ⟨"c1", "e", "n", 0, ""⟩)], []⟩
        ⟨"cart1", "c1", [⟨"p1", "Widget", "SKU1", 1, 10⟩]⟩
        ⟨"c1", "e", "n", 0, ""⟩ ⟨"credit_card", "split", [], "", 0⟩).1 = .error e ∧
      firstAppCode e = some .paymentFailed :=
  C10_split_strategy_checkout_always_fails _ _ "t1" "r1" _ _ _
    ⟨"credit_card", "split", [], "", 0⟩ rfl

end ECom
